import Mathlib

/-!
Shallow embedding of the card-collector-hub repository.

Source files embedded:
- src/config.py : the `Config` class resolving `SECRET_KEY` and
  `SQLALCHEMY_DATABASE_URI` from the process environment with Python
  `or`-fallback to literal defaults.
- src/app/routes/main.py : the `health_check` route returning
  `jsonify` of a one-field object.
-/

/-- A process environment: a mapping from variable names to optional
string values (`none` means the variable is unset). -/
def Env : Type := String → Option String

/-- `os.environ.get name`: total lookup in the environment, returning
`none` when the variable is absent (never raising). -/
def environGet (env : Env) (name : String) : Option String :=
  env name

/-- Python `x or default` on the result of `os.environ.get`: both `None`
and the empty string are falsy, so either selects the default. -/
def orDefault (x : Option String) (d : String) : String :=
  match x with
  | none => d
  | some v => if v = "" then d else v

/-- The `Config` class of src/config.py: the resolved settings snapshot. -/
structure Config where
  SECRET_KEY : String
  SQLALCHEMY_DATABASE_URI : String
  SQLALCHEMY_TRACK_MODIFICATIONS : Bool
deriving DecidableEq

/-- Evaluation of the `Config` class body of src/config.py against a
process environment: `os.environ.get("SECRET_KEY") or "dev-key-please-change"`
and `os.environ.get("DATABASE_URL") or "postgresql://localhost/card_collector_db"`,
with `SQLALCHEMY_TRACK_MODIFICATIONS = False`. -/
def loadConfig (env : Env) : Config :=
  { SECRET_KEY := orDefault (environGet env "SECRET_KEY") "dev-key-please-change"
    SQLALCHEMY_DATABASE_URI :=
      orDefault (environGet env "DATABASE_URL") "postgresql://localhost/card_collector_db"
    SQLALCHEMY_TRACK_MODIFICATIONS := false }

/-- An HTTP response: status code and a JSON-object body, the body given
as an ordered list of string fields. -/
structure Response where
  status : Nat
  body : List (String × String)
deriving DecidableEq

/-- Flask `jsonify` applied to a dict of strings: serializes the object
and returns it with status 200. -/
def jsonify (fields : List (String × String)) : Response :=
  { status := 200, body := fields }

/-- Serialization of the JSON-object body to its textual form, to speak
about the response bytes. -/
def jsonObjString (fields : List (String × String)) : String :=
  "\x7b" ++
    String.intercalate ", "
      (fields.map fun p => "\"" ++ p.1 ++ "\": \"" ++ p.2 ++ "\"") ++
  "\x7d"

/-- `health_check` from src/app/routes/main.py:
`return jsonify({"status": "healthy"})`. -/
def health_check : Response :=
  jsonify [("status", "healthy")]

/-- Module-level state of the running process: the configuration snapshot
resolved at startup and the current process environment. -/
structure ProcState where
  config : Config
  env : Env

/-- Process startup: resolve the configuration snapshot once from the
initial environment. -/
def startup (env0 : Env) : ProcState :=
  { config := loadConfig env0, env := env0 }

/-- Handling one health-check request: the route body constructs its
response from a literal and touches no state, so the state is returned
unchanged. -/
def handle_health_check (s : ProcState) : Response × ProcState :=
  (health_check, s)

/-- A run of `n` successive health-check invocations, threading the
process state and collecting the responses in order. -/
def runHealthChecks : ProcState → Nat → List Response × ProcState
  | s, 0 => ([], s)
  | s, n+1 =>
    let p := handle_health_check s
    let q := runHealthChecks p.2 n
    (p.1 :: q.1, q.2)

/-- Mutating the process environment after startup: only the `env` field
changes, the snapshot is untouched. -/
def setEnv (s : ProcState) (e : Env) : ProcState :=
  { s with env := e }

/-- Applying a sequence of environment mutations after startup. -/
def applyEnvChanges (s : ProcState) : List Env → ProcState
  | [] => s
  | e :: es => applyEnvChanges (setEnv s e) es

/-- The empty environment: both variables unset. -/
def envNone : Env := fun _ => none

/-- The environment of the spec's override scenario:
`SECRET_KEY=abc123`, `DATABASE_URL=postgresql://example/test`. -/
def envBoth : Env := fun n =>
  if n = "SECRET_KEY" then some "abc123"
  else if n = "DATABASE_URL" then some "postgresql://example/test"
  else none

/-- The environment with `SECRET_KEY` set to the empty string. -/
def envEmptySecret : Env := fun n =>
  if n = "SECRET_KEY" then some "" else none

/- Helper lemmas -/

/-- Environment mutations after startup never touch the snapshot field. -/
theorem applyEnvChanges_config (s : ProcState) (es : List Env) :
    (applyEnvChanges s es).config = s.config := by
  induction es generalizing s with
  | nil => rfl
  | cons e es ih => exact ih (setEnv s e)

/- Claim theorems -/

/-- Claim C1: every invocation of the health-check operation yields status
200 with body exactly the JSON object with single field status = healthy,
whose serialized form is `\x7b"status": "healthy"\x7d`. -/
theorem health_check_returns_healthy :
    health_check.status = 200 ∧
    health_check.body = [("status", "healthy")] ∧
    jsonObjString health_check.body = "\x7b\"status\": \"healthy\"\x7d" := by
  refine ⟨rfl, rfl, ?_⟩
  decide

/-- Claim C2: for every environment, each setting equals the environment
variable's value when present and non-empty, and its hard-coded default
otherwise; in particular with SECRET_KEY=abc123 and
DATABASE_URL=postgresql://example/test the resolved values are abc123 and
postgresql://example/test. -/
theorem config_resolution_policy (env : Env) :
    (∀ v, env "SECRET_KEY" = some v → v ≠ "" →
      (loadConfig env).SECRET_KEY = v) ∧
    (∀ v, env "DATABASE_URL" = some v → v ≠ "" →
      (loadConfig env).SQLALCHEMY_DATABASE_URI = v) ∧
    ((env "SECRET_KEY" = none ∨ env "SECRET_KEY" = some "") →
      (loadConfig env).SECRET_KEY = "dev-key-please-change") ∧
    ((env "DATABASE_URL" = none ∨ env "DATABASE_URL" = some "") →
      (loadConfig env).SQLALCHEMY_DATABASE_URI =
        "postgresql://localhost/card_collector_db") ∧
    (loadConfig envBoth).SECRET_KEY = "abc123" ∧
    (loadConfig envBoth).SQLALCHEMY_DATABASE_URI = "postgresql://example/test" := by
  refine ⟨?_, ?_, ?_, ?_, ?_, ?_⟩
  · intro v hv hne
    simp [loadConfig, environGet, orDefault, hv, hne]
  · intro v hv hne
    simp [loadConfig, environGet, orDefault, hv, hne]
  · rintro (h | h) <;> simp [loadConfig, environGet, orDefault, h]
  · rintro (h | h) <;> simp [loadConfig, environGet, orDefault, h]
  · decide
  · decide

/-- Witness for C2: the policy applied to the concrete override
environment of the spec scenario. -/
theorem config_resolution_policy_witness :
    (loadConfig envBoth).SECRET_KEY = "abc123" ∧
    (loadConfig envBoth).SQLALCHEMY_DATABASE_URI = "postgresql://example/test" :=
  ⟨(config_resolution_policy envBoth).1 "abc123" (by decide) (by decide),
   (config_resolution_policy envBoth).2.1 "postgresql://example/test"
     (by decide) (by decide)⟩

/-- Claim C3: with SECRET_KEY and DATABASE_URL both unset, the resolved
secret key is `dev-key-please-change` and the database URI is
`postgresql://localhost/card_collector_db`. -/
theorem config_default_fallback :
    (loadConfig envNone).SECRET_KEY = "dev-key-please-change" ∧
    (loadConfig envNone).SQLALCHEMY_DATABASE_URI =
      "postgresql://localhost/card_collector_db" :=
  ⟨rfl, rfl⟩

/-- Claim C4: with SECRET_KEY set to the empty string, the resolved
secret key falls back to the default rather than being empty. -/
theorem empty_secret_treated_as_unset :
    (loadConfig envEmptySecret).SECRET_KEY = "dev-key-please-change" ∧
    (loadConfig envEmptySecret).SECRET_KEY ≠ "" := by
  constructor
  · decide
  · decide

/-- Claim C5: configuration resolution is a pure, total function of the
environment: it always produces a snapshot, it depends only on the two
read variables, and absence of a variable merely selects the default
branch — it never fails. -/
theorem loadConfig_total_pure :
    (∀ env : Env, ∃ c : Config, loadConfig env = c) ∧
    (∀ env env' : Env, env "SECRET_KEY" = env' "SECRET_KEY" →
      env "DATABASE_URL" = env' "DATABASE_URL" →
      loadConfig env = loadConfig env') ∧
    (∀ env : Env, env "SECRET_KEY" = none →
      (loadConfig env).SECRET_KEY = "dev-key-please-change") ∧
    (∀ env : Env, env "DATABASE_URL" = none →
      (loadConfig env).SQLALCHEMY_DATABASE_URI =
        "postgresql://localhost/card_collector_db") := by
  refine ⟨fun env => ⟨loadConfig env, rfl⟩, ?_, ?_, ?_⟩
  · intro env env' h1 h2
    simp [loadConfig, environGet, h1, h2]
  · intro env h
    simp [loadConfig, environGet, orDefault, h]
  · intro env h
    simp [loadConfig, environGet, orDefault, h]

/-- Witness for C5: totality, purity and the default branch evaluated at
the concrete empty environment. -/
theorem loadConfig_total_pure_witness :
    (∃ c : Config, loadConfig envNone = c) ∧
    loadConfig envNone = loadConfig envNone ∧
    (loadConfig envNone).SECRET_KEY = "dev-key-please-change" ∧
    (loadConfig envNone).SQLALCHEMY_DATABASE_URI =
      "postgresql://localhost/card_collector_db" :=
  ⟨loadConfig_total_pure.1 envNone,
   loadConfig_total_pure.2.1 envNone envNone rfl rfl,
   loadConfig_total_pure.2.2.1 envNone rfl,
   loadConfig_total_pure.2.2.2 envNone rfl⟩

/-- Claim C6: the health-check operation is idempotent and memoryless:
any sequence of `n` invocations yields `n` identical responses and
leaves the process state exactly as it started. -/
theorem health_check_idempotent (s : ProcState) (n : Nat) :
    (runHealthChecks s n).1 = List.replicate n health_check ∧
    (runHealthChecks s n).2 = s := by
  induction n generalizing s with
  | zero => exact ⟨rfl, rfl⟩
  | succ n ih =>
    refine ⟨?_, ?_⟩
    · simpa [runHealthChecks, handle_health_check, List.replicate] using (ih s).1
    · simpa [runHealthChecks, handle_health_check] using (ih s).2

/-- Claim C7: the health-check operation has no side effects: the whole
process state, its configuration snapshot and its environment binding are
unchanged by the call, and the call always produces a response. -/
theorem health_check_no_side_effects (s : ProcState) :
    (handle_health_check s).2 = s ∧
    (handle_health_check s).2.config = s.config ∧
    (handle_health_check s).2.env = s.env ∧
    (handle_health_check s).1 = health_check :=
  ⟨rfl, rfl, rfl, rfl⟩

/-- Claim C8: the configuration snapshot is immutable for the process
lifetime: after startup, any sequence of later environment mutations
leaves every read of the snapshot equal to the startup resolution. -/
theorem config_immutable_after_startup (env0 : Env) (changes : List Env) :
    (applyEnvChanges (startup env0) changes).config = loadConfig env0 := by
  simpa [startup] using applyEnvChanges_config (startup env0) changes

/-- Claim C9: noninterference of configuration on health reporting: for
any two process states (hence any two environments and resolved
configurations), the health-check responses are identical. -/
theorem health_check_noninterference (s1 s2 : ProcState) (e1 e2 : Env) :
    (handle_health_check s1).1 = (handle_health_check s2).1 ∧
    (handle_health_check (startup e1)).1 = (handle_health_check (startup e2)).1 :=
  ⟨rfl, rfl⟩
